import Mathlib

/-!
Verification of the CAN-frame simulation repository.

Shallow embedding of the repository's code:
* `can_frame.py` — the 13-byte frame codec (`CANFrame`, `to_ethernet`, `from_ethernet`);
* `module_c.py` — the supervisory module (`ModuleCState`);
* `device_emulator.py` — Device B's watchdog subsystem (`DeviceBState`);
* `cloud_pipeline.py` — the frame-dispatch pipeline and its statistics (`CPState`);
* `cloud_app.py` — the application-level freeze control (`CloudAppState`).

Byte strings are modelled as `List Nat` (each element a byte value), real-valued
times and the timing scale as `ℚ`, and Python exceptions as `Except`/`Option`
results, with state mutations that happened before a raise preserved in the
returned state.
-/

/- Constants from constants.py. -/

def CAN_FRAME_MAX_DATA_LENGTH : Nat := 8

def CAN_STANDARD_ID_MAX : Nat := 0x7FF

def CAN_EXTENDED_ID_MAX : Nat := 0x1FFFFFFF

def DEVICE_A_STATUS_ID : Nat := 0x18FF0001

def DEVICE_B_STATUS_ID : Nat := 0x18FF0002

def WATCHDOG_FRAME_ID : Nat := 0x100

def CONTROL_FRAME_ID : Nat := 0x200

/-- Big-endian value of a byte list, as Python's int.from_bytes(bs, 'big'). -/
def bytesToNatBE (l : List Nat) : Nat := l.foldl (fun acc b => acc * 256 + b) 0

/-- A CAN frame (can_frame.py, class CANFrame): extended/remote flags,
identifier and payload bytes. -/
structure CANFrame where
  extended : Bool
  remote : Bool
  can_id : Nat
  data : List Nat
deriving DecidableEq

/-- Validation performed by CANFrame.__init__: the identifier must fit the
range selected by the extended flag and the payload at most 8 bytes; `none`
models the ValueError raised on violation. -/
def CANFrame.mk? (extended remote : Bool) (can_id : Nat) (data : List Nat) :
    Option CANFrame :=
  let max_id := if extended then CAN_EXTENDED_ID_MAX else CAN_STANDARD_ID_MAX
  if can_id ≤ max_id ∧ data.length ≤ CAN_FRAME_MAX_DATA_LENGTH then
    some { extended := extended, remote := remote, can_id := can_id, data := data }
  else
    none

/-- CANFrame.to_ethernet: control byte, 4 identifier bytes (big-endian,
top two zero for standard frames), payload zero-padded to 8 bytes. -/
def CANFrame.to_ethernet (f : CANFrame) : List Nat :=
  let control := (if f.extended then 0x80 else 0x00) |||
    (if f.remote then 0x40 else 0x00) ||| (f.data.length &&& 0x0F)
  let id_bytes :=
    if f.extended then
      [(f.can_id >>> 24) &&& 0xFF, (f.can_id >>> 16) &&& 0xFF,
        (f.can_id >>> 8) &&& 0xFF, f.can_id &&& 0xFF]
    else
      [0x00, 0x00, (f.can_id >>> 8) &&& 0xFF, f.can_id &&& 0xFF]
  let data_bytes := f.data ++ List.replicate (8 - f.data.length) 0
  control :: (id_bytes ++ data_bytes)

/-- The two ValueError sites reachable from CANFrame.from_ethernet:
the explicit length check, and the constructor validation. -/
inductive DecodeError where
  | invalidLength
  | valueError
deriving DecidableEq

/-- CANFrame.from_ethernet: length check, control-byte fields, identifier
from bytes 1-4 (extended) or 3-4 (standard), payload slice data[5:5+length],
then the CANFrame constructor (whose validation may still raise). -/
def CANFrame.from_ethernet (data : List Nat) : Except DecodeError CANFrame :=
  if data.length ≠ 13 then
    .error .invalidLength
  else
    let control := data.getD 0 0
    let extended := control &&& 0x80 != 0
    let remote := control &&& 0x40 != 0
    let length := control &&& 0x0F
    let can_id := if extended then bytesToNatBE ((data.drop 1).take 4)
      else bytesToNatBE ((data.drop 3).take 2)
    let frame_data := (data.drop 5).take length
    match CANFrame.mk? extended remote can_id frame_data with
    | some f => .ok f
    | none => .error .valueError

/- module_c.py — the supervisory module. -/

/-- State of ModuleC (module_c.py): the last received device values, the
derived calculation result and its timestamp, plus the running/frozen flags. -/
structure ModuleCState where
  device_a : Nat
  device_b : Nat
  calculation_result : Nat
  last_calculation_time : ℚ
  running : Bool
  frozen : Bool
deriving DecidableEq

/-- ModuleC.set_running: stopping also sets the frozen state, starting clears it. -/
def ModuleC.set_running (s : ModuleCState) (state : Bool) : ModuleCState :=
  { s with running := state, frozen := !state }

/-- ModuleC._get_operational_value: the multiplier derived from the wall-clock
second-of-minute (int(time.time()) % 60). -/
def ModuleC._get_operational_value (now : ℚ) : Nat :=
  let current_second := (⌊now⌋).toNat % 60
  if current_second ≤ 15 then 1
  else if current_second ≤ 30 then 10
  else if current_second ≤ 45 then 100
  else 1000

/-- One body iteration of ModuleC.process_data: when running and not frozen it
recomputes calculation_result and the timestamp and sleeps the remainder of the
scaled cycle; otherwise it only sleeps a full scaled cycle. Returns the new
state and the slept duration (the only place the timing scale enters). -/
def ModuleC.process_cycle (s : ModuleCState) (now processing_time scale : ℚ) :
    ModuleCState × ℚ :=
  if s.running && !s.frozen then
    ({ s with
        calculation_result :=
          (s.device_a + s.device_b) * ModuleC._get_operational_value now,
        last_calculation_time := now },
      max 0 (scale * 0.1 - processing_time))
  else
    (s, scale * 0.1)

/-- ModuleC.update_device_a: the update is applied only when not frozen. -/
def ModuleC.update_device_a (s : ModuleCState) (value : Nat) : ModuleCState :=
  if !s.frozen then { s with device_a := value } else s

/-- ModuleC.update_device_b: the update is applied only when not frozen. -/
def ModuleC.update_device_b (s : ModuleCState) (value : Nat) : ModuleCState :=
  if !s.frozen then { s with device_b := value } else s

/-- The spec's step table for Module C: second-of-minute 0-15 maps to 1,
16-30 to 10, 31-45 to 100, 46-59 to 1000. -/
def stepSpec (sec : Nat) : Nat :=
  if sec ≤ 15 then 1
  else if 16 ≤ sec ∧ sec ≤ 30 then 10
  else if 31 ≤ sec ∧ sec ≤ 45 then 100
  else 1000

/-- An inbound supervisory-value update, as issued by the pipeline handlers. -/
inductive SupUpdate where
  | fromA (value : Nat)
  | fromB (value : Nat)

/-- Apply one supervisory-value update to Module C. -/
def applySupUpdate (s : ModuleCState) (u : SupUpdate) : ModuleCState :=
  match u with
  | .fromA v => ModuleC.update_device_a s v
  | .fromB v => ModuleC.update_device_b s v

/- device_emulator.py — Device B and its watchdog subsystem. -/

/-- The watchdog status register value of Device B. -/
inductive WatchdogStatus where
  | ok
  | triggered
deriving DecidableEq

/-- State of DeviceB (device_emulator.py): the registers dictionary, the last
watchdog reset time, the running/frozen flags and the watchdog status saved
while frozen. -/
structure DeviceBState where
  control : Nat
  status : Nat
  watchdog : Nat
  watchdog_status : WatchdogStatus
  last_command : ℚ
  last_watchdog_reset : ℚ
  running : Bool
  frozen : Bool
  frozen_watchdog_status : Option WatchdogStatus
deriving DecidableEq

/-- DeviceB.set_running: stopping freezes and saves the watchdog status;
starting unfreezes and restores the saved status if one exists. -/
def DeviceB.set_running (s : DeviceBState) (state : Bool) : DeviceBState :=
  if state then
    match s.frozen_watchdog_status with
    | some w => { s with
        running := true, frozen := false,
        watchdog_status := w, frozen_watchdog_status := none }
    | none => { s with running := true, frozen := false }
  else
    { s with
        running := false, frozen := true,
        frozen_watchdog_status := some s.watchdog_status }

/-- DeviceB._watchdog_timeout: base timeout 0.5 s scaled by the timing scale,
recomputed at every check. -/
def DeviceB._watchdog_timeout (scale : ℚ) : ℚ := 0.5 * scale

/-- One check of DeviceB._watchdog_monitor: when running and not frozen, if the
time since the last reset exceeds the scaled timeout and the status is not
already triggered, it becomes triggered. -/
def DeviceB.watchdog_check (s : DeviceBState) (now scale : ℚ) : DeviceBState :=
  if s.running && !s.frozen then
    if now - s.last_watchdog_reset > DeviceB._watchdog_timeout scale then
      if s.watchdog_status ≠ .triggered then
        { s with watchdog_status := .triggered }
      else s
    else s
  else s

/-- DeviceB.handle_frame: ignored while frozen; a watchdog-reset frame (0x100)
updates the reset time, then the register from the first payload byte (an empty
payload raises IndexError there, after the reset-time mutation), then clears
the status to ok; a control frame (0x200) copies the first payload byte into
the control register; other identifiers are ignored; a decode error is raised
before any mutation. -/
def DeviceB.handle_frame (s : DeviceBState) (data : List Nat) (now : ℚ) :
    DeviceBState :=
  if s.frozen then s
  else
    match CANFrame.from_ethernet data with
    | .error _ => s
    | .ok frame =>
      if frame.can_id = 0x100 then
        match frame.data with
        | [] => { s with last_watchdog_reset := now }
        | d0 :: _ => { s with
            last_watchdog_reset := now, watchdog := d0, watchdog_status := .ok }
      else if frame.can_id = 0x200 then
        match frame.data with
        | [] => s
        | d0 :: _ => { s with control := d0, last_command := now }
      else s

/-- The events of Device B's watchdog subsystem: a monitor check, an inbound
frame (covering both transport frames and command-initiated resets, which are
delivered through handle_frame), and a running-state change. -/
inductive DeviceBEvent where
  | monitor (now scale : ℚ)
  | frame (data : List Nat) (now : ℚ)
  | set_running (state : Bool)

/-- One step of Device B's watchdog subsystem. -/
def DeviceB.step (s : DeviceBState) (e : DeviceBEvent) : DeviceBState :=
  match e with
  | .monitor now scale => DeviceB.watchdog_check s now scale
  | .frame data now => DeviceB.handle_frame s data now
  | .set_running b => DeviceB.set_running s b

/-- Device B's construction-time state (registers zero, status ok, running,
not frozen, nothing saved), at start time t0. -/
def DeviceB.init (t0 : ℚ) : DeviceBState :=
  { control := 0, status := 0, watchdog := 0, watchdog_status := .ok,
    last_command := 0, last_watchdog_reset := t0, running := true,
    frozen := false, frozen_watchdog_status := none }

/-- Invariant of Device B's reachable states: while frozen the saved watchdog
status equals the current one (nothing changes the current status while
frozen), and while unfrozen nothing is saved. -/
def DeviceBInv (s : DeviceBState) : Prop :=
  (s.frozen = true → s.frozen_watchdog_status = some s.watchdog_status) ∧
  (s.frozen = false → s.frozen_watchdog_status = none)

/- cloud_pipeline.py — the frame-dispatch pipeline. -/

/-- State of CloudPipeline (cloud_pipeline.py) together with the pieces of
shared state its handlers mutate: the _pipeline_stats counters and rates, the
last-seen watchdog status, Module C's state and Device A's visible status. -/
structure CPState where
  frames_processed : Nat
  device_a_frames : Nat
  device_b_frames : Nat
  control_frames : Nat
  watchdog_frames : Nat
  last_frame_time : ℚ
  rate_device_a : ℚ
  rate_device_b : ℚ
  rate_total : ℚ
  last_rates_update : ℚ
  last_watchdog_status_ok : Bool
  last_watchdog_reset_time : ℚ
  frozen : Bool
  module_c : ModuleCState
  device_a_operational : Nat
  device_a_uptime : Nat
  last_received_frames : Nat → Option CANFrame

/-- CloudPipeline._handle_device_a_frame: increments the Device A counter, then
reads the operational value from payload byte 0 (IndexError on an empty
payload, modelled by the false flag), forwards it to Module C and to Device A's
status, and stores the uptime from payload bytes 1-4. -/
def CloudPipeline._handle_device_a_frame (s : CPState) (frame : CANFrame) :
    CPState × Bool :=
  let s1 := { s with device_a_frames := s.device_a_frames + 1 }
  match frame.data with
  | [] => (s1, false)
  | op :: _ =>
    ({ s1 with
        module_c := ModuleC.update_device_a s1.module_c op,
        device_a_operational := op,
        device_a_uptime := bytesToNatBE ((frame.data.drop 1).take 4) }, true)

/-- CloudPipeline._handle_device_b_frame: increments the Device B counter, then
reads the control value from payload byte 1 and the watchdog flag from payload
byte 3 (IndexError when the payload is shorter than 4, modelled by the false
flag; the partial mutations made before the raise are kept) and forwards the
control value to Module C. -/
def CloudPipeline._handle_device_b_frame (s : CPState) (frame : CANFrame) :
    CPState × Bool :=
  let s1 := { s with device_b_frames := s.device_b_frames + 1 }
  if 2 ≤ frame.data.length then
    let control_value := frame.data.getD 1 0
    if 4 ≤ frame.data.length then
      let s2 := { s1 with last_watchdog_status_ok := frame.data.getD 3 0 != 0 }
      ({ s2 with module_c := ModuleC.update_device_b s2.module_c control_value },
        true)
    else (s1, false)
  else (s1, false)

/-- CloudPipeline._handle_watchdog_frame: increments the watchdog counter and
timestamps the reset; it reads no payload byte. -/
def CloudPipeline._handle_watchdog_frame (s : CPState) (_frame : CANFrame)
    (now : ℚ) : CPState × Bool :=
  ({ s with
      watchdog_frames := s.watchdog_frames + 1,
      last_watchdog_reset_time := now }, true)

/-- CloudPipeline._handle_control_frame: increments the control counter, then
its log line reads payload byte 0 (IndexError on an empty payload, modelled by
the false flag). -/
def CloudPipeline._handle_control_frame (s : CPState) (frame : CANFrame) :
    CPState × Bool :=
  let s1 := { s with control_frames := s.control_frames + 1 }
  match frame.data with
  | [] => (s1, false)
  | _ :: _ => (s1, true)

/-- Errors propagated out of CloudPipeline.process_device_frame: a decode
failure from the codec, or an IndexError raised inside a handler. -/
inductive PipelineError where
  | decodeFailure (e : DecodeError)
  | indexError
deriving DecidableEq

/-- CloudPipeline.process_device_frame: decode (propagating failures); a frozen
pipeline returns the frame without counting or dispatching; otherwise it
increments frames_processed, timestamps, dispatches to the handler registered
for the identifier (if any), and on success records the frame as last seen for
that identifier; a handler IndexError propagates, with every mutation made
before the raise kept. -/
def CloudPipeline.process_device_frame (s : CPState) (frame_bytes : List Nat)
    (now : ℚ) : CPState × Except PipelineError CANFrame :=
  match CANFrame.from_ethernet frame_bytes with
  | .error e => (s, .error (.decodeFailure e))
  | .ok frame =>
    if s.frozen then (s, .ok frame)
    else
      let s1 := { s with
        frames_processed := s.frames_processed + 1,
        last_frame_time := now }
      let handled : CPState × Bool :=
        if frame.can_id = DEVICE_A_STATUS_ID then
          CloudPipeline._handle_device_a_frame s1 frame
        else if frame.can_id = DEVICE_B_STATUS_ID then
          CloudPipeline._handle_device_b_frame s1 frame
        else if frame.can_id = WATCHDOG_FRAME_ID then
          CloudPipeline._handle_watchdog_frame s1 frame now
        else if frame.can_id = CONTROL_FRAME_ID then
          CloudPipeline._handle_control_frame s1 frame
        else (s1, true)
      match handled with
      | (s2, false) => (s2, .error .indexError)
      | (s2, true) =>
        ({ s2 with
            last_received_frames := fun i =>
              if i = frame.can_id then some frame else s2.last_received_frames i },
          .ok frame)

/-- One tick of CloudPipeline._reset_counters_periodic (the body run after each
scaled 10 s sleep): when not frozen it recomputes the published frame rates
from the counters and the elapsed time since the previous reset, then zeroes
all five counters and timestamps the reset. -/
def CloudPipeline.reset_counters_tick (s : CPState) (now scale : ℚ) : CPState :=
  if !s.frozen then
    let elapsed := now - s.last_rates_update
    { s with
      rate_device_a := ((s.device_a_frames : ℚ) / max 1 elapsed) * scale,
      rate_device_b := ((s.device_b_frames : ℚ) / max 1 elapsed) * scale,
      rate_total := ((s.frames_processed : ℚ) / max 1 elapsed) * scale,
      frames_processed := 0,
      device_a_frames := 0,
      device_b_frames := 0,
      control_frames := 0,
      watchdog_frames := 0,
      last_rates_update := now }
  else s

/-- A concrete pipeline state used to instantiate the statistics theorems:
one processed frame, one Device A frame, half a second into the window. -/
def statsStart : CPState :=
  { frames_processed := 1, device_a_frames := 1, device_b_frames := 0,
    control_frames := 0, watchdog_frames := 0, last_frame_time := 0,
    rate_device_a := 0, rate_device_b := 0, rate_total := 0,
    last_rates_update := 0, last_watchdog_status_ok := true,
    last_watchdog_reset_time := 0, frozen := false,
    module_c := ⟨0, 0, 0, 0, true, false⟩, device_a_operational := 1,
    device_a_uptime := 0, last_received_frames := fun _ => none }

/- cloud_app.py — the application-level freeze control. -/

/-- The slice of CloudApp's state that set_frozen touches: the freeze flag, the
auto-watchdog enablement, the attribute saving the pre-freeze enablement
(none models the attribute not existing yet), whether the auto-watchdog sender
task is scheduled, and the three owned components. -/
structure CloudAppState where
  frozen : Bool
  auto_watchdog_enabled : Bool
  watchdog_state_before_freeze : Option Bool
  watchdog_task_active : Bool
  device_a_running : Bool
  device_b : DeviceBState
  module_c : ModuleCState
deriving DecidableEq

/-- CloudApp.set_frozen: freezing stops the three components, saves the current
auto-watchdog enablement into _watchdog_state_before_freeze, disables the auto
watchdog and cancels its task; unfreezing restarts the components and, if the
saved attribute exists, restores the enablement and (when it was enabled)
schedules the sender task again. The saved attribute is never deleted. -/
def CloudApp.set_frozen (s : CloudAppState) (state : Bool) : CloudAppState :=
  if state then
    { s with
      frozen := true,
      device_a_running := false,
      device_b := DeviceB.set_running s.device_b false,
      module_c := ModuleC.set_running s.module_c false,
      watchdog_state_before_freeze := some s.auto_watchdog_enabled,
      auto_watchdog_enabled := false,
      watchdog_task_active := false }
  else
    match s.watchdog_state_before_freeze with
    | some w =>
      { s with
        frozen := false,
        device_a_running := true,
        device_b := DeviceB.set_running s.device_b true,
        module_c := ModuleC.set_running s.module_c true,
        auto_watchdog_enabled := w,
        watchdog_task_active := if w then true else s.watchdog_task_active }
    | none =>
      { s with
        frozen := false,
        device_a_running := true,
        device_b := DeviceB.set_running s.device_b true,
        module_c := ModuleC.set_running s.module_c true }

/-- A concrete application state with the auto watchdog enabled and running,
used to exhibit the double-freeze behaviour. -/
def appStart : CloudAppState :=
  { frozen := false, auto_watchdog_enabled := true,
    watchdog_state_before_freeze := none, watchdog_task_active := true,
    device_a_running := true, device_b := DeviceB.init 0,
    module_c := ⟨0, 0, 0, 0, true, false⟩ }

/-- A concrete Device B state with the watchdog already triggered, running and
not frozen, used to instantiate the watchdog theorems. -/
def sTrigExample : DeviceBState :=
  { control := 0, status := 0, watchdog := 0, watchdog_status := .triggered,
    last_command := 0, last_watchdog_reset := 0, running := true, frozen := false,
    frozen_watchdog_status := none }

/-- The 13-byte encapsulation of a watchdog-reset frame (identifier 0x100,
payload [1]). -/
def wdResetBytes : List Nat := [1, 0, 0, 1, 0, 1, 0, 0, 0, 0, 0, 0, 0]

/-- The 13-byte encapsulation of a Device A status frame (extended identifier
0x18FF0001) with declared payload length 0. -/
def emptyAStatusBytes : List Nat :=
  [0x80, 0x18, 0xFF, 0x00, 0x01, 0, 0, 0, 0, 0, 0, 0, 0]

/- Arithmetic helpers for the codec proofs. -/

lemma and_255_eq_mod (n : Nat) : n &&& 0xFF = n % 256 := by
  have h := Nat.and_pow_two_sub_one_eq_mod n 8
  norm_num at h
  exact h

lemma and_15_eq_mod (n : Nat) : n &&& 0x0F = n % 16 := by
  have h := Nat.and_pow_two_sub_one_eq_mod n 4
  norm_num at h
  exact h

lemma bytesToNatBE_four (n : Nat) (h : n < 2 ^ 32) :
    bytesToNatBE [(n >>> 24) &&& 0xFF, (n >>> 16) &&& 0xFF,
      (n >>> 8) &&& 0xFF, n &&& 0xFF] = n := by
  simp only [bytesToNatBE, List.foldl, and_255_eq_mod, Nat.shiftRight_eq_div_pow]
  norm_num at h ⊢
  omega

lemma bytesToNatBE_two (n : Nat) (h : n < 2 ^ 16) :
    bytesToNatBE [(n >>> 8) &&& 0xFF, n &&& 0xFF] = n := by
  simp only [bytesToNatBE, List.foldl, and_255_eq_mod, Nat.shiftRight_eq_div_pow]
  norm_num at h ⊢
  omega

lemma control_byte_bits (ext rem : Bool) (len : Nat) (hlen : len ≤ 8) :
    ((((if ext then 0x80 else 0x00) ||| (if rem then 0x40 else 0x00) |||
        (len &&& 0x0F)) &&& 0x80 != 0) = ext) ∧
    ((((if ext then 0x80 else 0x00) ||| (if rem then 0x40 else 0x00) |||
        (len &&& 0x0F)) &&& 0x40 != 0) = rem) ∧
    (((if ext then 0x80 else 0x00) ||| (if rem then 0x40 else 0x00) |||
        (len &&& 0x0F)) &&& 0x0F = len) := by
  cases ext <;> cases rem <;> interval_cases len <;> exact ⟨rfl, rfl, rfl⟩

lemma from_ethernet_cons (c b1 b2 b3 b4 : Nat) (rest : List Nat)
    (h : rest.length = 8) :
    CANFrame.from_ethernet (c :: b1 :: b2 :: b3 :: b4 :: rest) =
      match CANFrame.mk? (c &&& 0x80 != 0) (c &&& 0x40 != 0)
        (if c &&& 0x80 != 0 then bytesToNatBE [b1, b2, b3, b4]
          else bytesToNatBE [b3, b4])
        (rest.take (c &&& 0x0F)) with
      | some f => .ok f
      | none => .error .valueError := by
  simp [CANFrame.from_ethernet, h]

/-- C1: round-trip — decoding the 13-byte encoding of a valid frame (identifier
within the range selected by the extended flag, payload of at most 8 bytes)
returns the frame itself: extended flag, remote flag, identifier and payload all
preserved, and the zero padding beyond the declared length is not part of the
decoded payload. -/
theorem decode_encode_roundtrip (f : CANFrame)
    (hid : f.can_id ≤ if f.extended then CAN_EXTENDED_ID_MAX else CAN_STANDARD_ID_MAX)
    (hlen : f.data.length ≤ 8)
    (hbytes : ∀ x ∈ f.data, x < 256) :
    CANFrame.from_ethernet f.to_ethernet = .ok f := by
  obtain ⟨ext, rem, id, d⟩ := f
  simp only at hid hlen
  have hrest : (d ++ List.replicate (8 - d.length) 0).length = 8 := by
    simp; omega
  obtain ⟨hext, hrem, hnib⟩ := control_byte_bits ext rem d.length hlen
  have htake : (d ++ List.replicate (8 - d.length) 0).take d.length = d :=
    List.take_left d _
  cases ext
  · have hid' : id ≤ CAN_STANDARD_ID_MAX := by simpa using hid
    have hbe : bytesToNatBE [(id >>> 8) &&& 0xFF, id &&& 0xFF] = id := by
      refine bytesToNatBE_two id ?_
      unfold CAN_STANDARD_ID_MAX at hid'
      omega
    simp only [CANFrame.to_ethernet, Bool.false_eq_true, if_false, List.cons_append,
      List.nil_append] at *
    rw [from_ethernet_cons _ _ _ _ _ _ hrest]
    rw [hext, hrem, hnib]
    simp only [Bool.false_eq_true, if_false, hbe, htake]
    unfold CANFrame.mk?
    simp only []
    rw [if_pos ⟨hid', hlen⟩]
  · have hid' : id ≤ CAN_EXTENDED_ID_MAX := by simpa using hid
    have hbe : bytesToNatBE [(id >>> 24) &&& 0xFF, (id >>> 16) &&& 0xFF,
        (id >>> 8) &&& 0xFF, id &&& 0xFF] = id := by
      refine bytesToNatBE_four id ?_
      unfold CAN_EXTENDED_ID_MAX at hid'
      omega
    simp only [CANFrame.to_ethernet, if_true, List.cons_append, List.nil_append] at *
    rw [from_ethernet_cons _ _ _ _ _ _ hrest]
    rw [hext, hrem, hnib]
    simp only [if_true, hbe, htake]
    unfold CANFrame.mk?
    simp only []
    rw [if_pos ⟨hid', hlen⟩]

/-- Witness for C1 at the spec's concrete scenario frame. -/
theorem decode_encode_roundtrip_witness :
    CANFrame.from_ethernet (CANFrame.to_ethernet ⟨true, false, 0x18FF0001, [2, 0, 0, 0, 42]⟩) =
      .ok ⟨true, false, 0x18FF0001, [2, 0, 0, 0, 42]⟩ :=
  decode_encode_roundtrip ⟨true, false, 0x18FF0001, [2, 0, 0, 0, 42]⟩
    (by decide) (by decide) (by decide)

/-- C3: encode postcondition — a valid frame encodes to exactly 13 bytes;
byte 0 is the control byte (extended bit, remote bit, payload length nibble);
bytes 1-4 carry the identifier big-endian (top two bytes zero for standard
frames); bytes 5-12 are the payload right-padded with zeros to 8 bytes. -/
theorem to_ethernet_spec (f : CANFrame)
    (hid : f.can_id ≤ if f.extended then CAN_EXTENDED_ID_MAX else CAN_STANDARD_ID_MAX)
    (hlen : f.data.length ≤ 8) :
    f.to_ethernet.length = 13 ∧
    f.to_ethernet.getD 0 0 = ((if f.extended then 0x80 else 0x00) |||
      (if f.remote then 0x40 else 0x00) ||| (f.data.length &&& 0x0F)) ∧
    bytesToNatBE ((f.to_ethernet.drop 1).take 4) = f.can_id ∧
    (f.extended = false → f.to_ethernet.getD 1 0 = 0 ∧ f.to_ethernet.getD 2 0 = 0) ∧
    f.to_ethernet.drop 5 = f.data ++ List.replicate (8 - f.data.length) 0 := by
  obtain ⟨ext, rem, id, d⟩ := f
  simp only at hid hlen ⊢
  cases ext
  · have hid' : id ≤ CAN_STANDARD_ID_MAX := by simpa using hid
    have hbe : bytesToNatBE [(id >>> 8) &&& 0xFF, id &&& 0xFF] = id := by
      refine bytesToNatBE_two id ?_
      unfold CAN_STANDARD_ID_MAX at hid'
      omega
    refine ⟨?_, rfl, ?_, fun _ => ⟨rfl, rfl⟩, rfl⟩
    · simp [CANFrame.to_ethernet]
      omega
    · simp only [CANFrame.to_ethernet, Bool.false_eq_true, if_false, List.cons_append,
        List.nil_append, List.drop, List.take]
      have h2 : bytesToNatBE [0, 0, (id >>> 8) &&& 0xFF, id &&& 0xFF] =
          bytesToNatBE [(id >>> 8) &&& 0xFF, id &&& 0xFF] := by
        simp [bytesToNatBE]
      rw [h2, hbe]
  · have hid' : id ≤ CAN_EXTENDED_ID_MAX := by simpa using hid
    have hbe : bytesToNatBE [(id >>> 24) &&& 0xFF, (id >>> 16) &&& 0xFF,
        (id >>> 8) &&& 0xFF, id &&& 0xFF] = id := by
      refine bytesToNatBE_four id ?_
      unfold CAN_EXTENDED_ID_MAX at hid'
      omega
    refine ⟨?_, rfl, ?_, fun h => by simp at h, rfl⟩
    · simp [CANFrame.to_ethernet]
      omega
    · simp only [CANFrame.to_ethernet, if_true, List.cons_append,
        List.nil_append, List.drop, List.take]
      rw [hbe]

/-- Witness for C3 at a concrete standard frame. -/
theorem to_ethernet_spec_witness :
    (CANFrame.to_ethernet ⟨false, true, 0x123, [1, 2]⟩).length = 13 ∧
    (CANFrame.to_ethernet ⟨false, true, 0x123, [1, 2]⟩).getD 0 0 =
      ((if false then 0x80 else 0x00) ||| (if true then 0x40 else 0x00) |||
        ((2 : Nat) &&& 0x0F)) ∧
    bytesToNatBE (((CANFrame.to_ethernet ⟨false, true, 0x123, [1, 2]⟩).drop 1).take 4) =
      0x123 ∧
    (false = false → (CANFrame.to_ethernet ⟨false, true, 0x123, [1, 2]⟩).getD 1 0 = 0 ∧
      (CANFrame.to_ethernet ⟨false, true, 0x123, [1, 2]⟩).getD 2 0 = 0) ∧
    (CANFrame.to_ethernet ⟨false, true, 0x123, [1, 2]⟩).drop 5 =
      [1, 2] ++ List.replicate (8 - ([1, 2] : List Nat).length) 0 :=
  to_ethernet_spec ⟨false, true, 0x123, [1, 2]⟩ (by decide) (by decide)

/-- C2 counterexample: a 13-byte input on which decode does not succeed — the
standard-frame identifier field 0x0800 exceeds 0x7FF, so the CANFrame
constructor raises ValueError even though the length is exactly 13. -/
theorem decode_length13_counterexample :
    ([0, 0, 0, 0x08, 0, 0, 0, 0, 0, 0, 0, 0, 0] : List Nat).length = 13 ∧
    CANFrame.from_ethernet [0, 0, 0, 0x08, 0, 0, 0, 0, 0, 0, 0, 0, 0] =
      .error .valueError :=
  ⟨rfl, rfl⟩

/-- C2 (amended): decode fails with the invalid-length error exactly on inputs
whose length differs from 13; a 13-byte input decodes successfully if and only
if the extracted identifier is within range for the extracted extended flag
(otherwise the frame constructor's ValueError propagates). -/
theorem from_ethernet_error_cases (b : List Nat) :
    (b.length ≠ 13 → CANFrame.from_ethernet b = .error .invalidLength) ∧
    (b.length = 13 →
      ((∃ f, CANFrame.from_ethernet b = .ok f) ↔
        (if b.getD 0 0 &&& 0x80 != 0 then
          bytesToNatBE ((b.drop 1).take 4) ≤ CAN_EXTENDED_ID_MAX
        else bytesToNatBE ((b.drop 3).take 2) ≤ CAN_STANDARD_ID_MAX))) := by
  constructor
  · intro h
    unfold CANFrame.from_ethernet
    rw [if_pos h]
  · intro h
    have hlen8 : ((b.drop 5).take (b.getD 0 0 &&& 0x0F)).length ≤ 8 := by
      simp [List.length_take, List.length_drop, h]
    unfold CANFrame.from_ethernet
    rw [if_neg (by omega)]
    simp only
    unfold CANFrame.mk?
    cases h80 : (b.getD 0 0 &&& 0x80 != 0) <;>
      simp only [h80, Bool.false_eq_true, if_false, if_true]
    · constructor
      · intro ⟨f, hf⟩
        by_contra hgt
        rw [if_neg (by exact fun hc => hgt hc.1)] at hf
        exact Except.noConfusion hf
      · intro hle
        exact ⟨_, by rw [if_pos ⟨hle, hlen8⟩]⟩
    · constructor
      · intro ⟨f, hf⟩
        by_contra hgt
        rw [if_neg (by exact fun hc => hgt hc.1)] at hf
        exact Except.noConfusion hf
      · intro hle
        exact ⟨_, by rw [if_pos ⟨hle, hlen8⟩]⟩

/-- Witness for C2 (amended): a short input yields the length error; the
all-zero 13-byte input decodes successfully. -/
theorem from_ethernet_error_cases_witness :
    CANFrame.from_ethernet [0, 0] = .error .invalidLength ∧
    ∃ f, CANFrame.from_ethernet [0, 0, 0, 0, 0, 0, 0, 0, 0, 0, 0, 0, 0] = .ok f :=
  ⟨(from_ethernet_error_cases [0, 0]).1 (by decide),
   ((from_ethernet_error_cases [0, 0, 0, 0, 0, 0, 0, 0, 0, 0, 0, 0, 0]).2 rfl).mpr
     (by decide)⟩

/-- C9 counterexample: a 13-byte input with declared-length nibble 9 on which
decode raises rather than succeeds — its standard-frame identifier field 0x0800
is out of range, so the constructor's ValueError propagates. -/
theorem length_nibble_counterexample :
    (([0x09, 0, 0, 0x08, 0, 0, 0, 0, 0, 0, 0, 0, 0] : List Nat).getD 0 0 &&& 0x0F = 9) ∧
    ([0x09, 0, 0, 0x08, 0, 0, 0, 0, 0, 0, 0, 0, 0] : List Nat).length = 13 ∧
    CANFrame.from_ethernet [0x09, 0, 0, 0x08, 0, 0, 0, 0, 0, 0, 0, 0, 0] =
      .error .valueError :=
  ⟨rfl, rfl, rfl⟩

/-- C9 (amended): for a 13-byte input whose control-byte low nibble is 9-15 and
whose identifier field is within range for its extended flag, decode succeeds
(the slice data[5:5+n] is truncated at the end of the buffer) and the payload is
exactly the 8 trailing bytes — indistinguishable from a declared length of 8. -/
theorem from_ethernet_length_clamp (c b1 b2 b3 b4 : Nat) (rest : List Nat)
    (hrest : rest.length = 8)
    (hnib : 9 ≤ c &&& 0x0F)
    (hid : (if c &&& 0x80 != 0 then bytesToNatBE [b1, b2, b3, b4]
        else bytesToNatBE [b3, b4]) ≤
      (if c &&& 0x80 != 0 then CAN_EXTENDED_ID_MAX else CAN_STANDARD_ID_MAX)) :
    CANFrame.from_ethernet (c :: b1 :: b2 :: b3 :: b4 :: rest) =
      .ok { extended := c &&& 0x80 != 0, remote := c &&& 0x40 != 0,
            can_id := if c &&& 0x80 != 0 then bytesToNatBE [b1, b2, b3, b4]
              else bytesToNatBE [b3, b4],
            data := rest } := by
  rw [from_ethernet_cons c b1 b2 b3 b4 rest hrest]
  have htake : rest.take (c &&& 0x0F) = rest := List.take_of_length_le (by omega)
  rw [htake]
  unfold CANFrame.mk?
  cases h80 : (c &&& 0x80 != 0) <;> simp only [h80] at hid ⊢ <;>
    simp only [Bool.false_eq_true, if_false, if_true] <;>
    rw [if_pos ⟨hid, by rw [hrest]; decide⟩]

/-- Witness for C9 (amended) at nibble 15 with an in-range identifier. -/
theorem from_ethernet_length_clamp_witness :
    CANFrame.from_ethernet [0x0F, 0, 0, 0, 0, 1, 2, 3, 4, 5, 6, 7, 8] =
      .ok ⟨false, false, 0, [1, 2, 3, 4, 5, 6, 7, 8]⟩ :=
  from_ethernet_length_clamp 0x0F 0 0 0 0 [1, 2, 3, 4, 5, 6, 7, 8]
    rfl (by decide) (by decide)
/-- The code's step function agrees with the spec's table at every
second-of-minute. -/
lemma operational_eq_stepSpec (now : ℚ) :
    ModuleC._get_operational_value now = stepSpec ((⌊now⌋).toNat % 60) := by
  unfold ModuleC._get_operational_value stepSpec
  dsimp only
  generalize (⌊now⌋).toNat % 60 = sec
  split_ifs <;> omega

/-- C5: every processing cycle of Module C with the module running and not
frozen sets calculation_result to (device_a + device_b) times the step value of
the wall-clock second-of-minute (0-15 : 1, 16-30 : 10, 31-45 : 100,
46-59 : 1000), and the resulting state is independent of the TimingScale, which
enters only the slept duration. -/
theorem process_cycle_result (s : ModuleCState) (now processing_time : ℚ)
    (scale scale' : ℚ) (hrun : s.running = true) (hfroz : s.frozen = false) :
    (ModuleC.process_cycle s now processing_time scale).1.calculation_result =
      (s.device_a + s.device_b) * stepSpec ((⌊now⌋).toNat % 60) ∧
    (ModuleC.process_cycle s now processing_time scale).1 =
      (ModuleC.process_cycle s now processing_time scale').1 := by
  unfold ModuleC.process_cycle
  rw [hrun, hfroz]
  simp [operational_eq_stepSpec]

/-- Witness for C5 at second-of-minute 20 with scales 1 and 1000. -/
theorem process_cycle_result_witness :
    (ModuleC.process_cycle ⟨2, 3, 0, 0, true, false⟩ 20 0 1).1.calculation_result =
      (2 + 3) * stepSpec ((⌊(20 : ℚ)⌋).toNat % 60) ∧
    (ModuleC.process_cycle ⟨2, 3, 0, 0, true, false⟩ 20 0 1).1 =
      (ModuleC.process_cycle ⟨2, 3, 0, 0, true, false⟩ 20 0 1000).1 :=
  process_cycle_result ⟨2, 3, 0, 0, true, false⟩ 20 0 1 1000 rfl rfl

/-- C6: while Module C is frozen, any sequence of update_device_a and
update_device_b calls leaves the whole state — in particular both last values
and calculation_result — unchanged (dropped, not queued); after unfreezing via
set_running true, updates take effect again. -/
theorem frozen_updates_dropped (s : ModuleCState) (us : List SupUpdate)
    (va vb : Nat) (h : s.frozen = true) :
    us.foldl applySupUpdate s = s ∧
    (ModuleC.update_device_a (ModuleC.set_running s true) va).device_a = va ∧
    (ModuleC.update_device_b (ModuleC.set_running s true) vb).device_b = vb := by
  refine ⟨?_, ?_, ?_⟩
  · induction us with
    | nil => rfl
    | cons u us ih =>
      have hu : applySupUpdate s u = s := by
        cases u <;> simp [applySupUpdate, ModuleC.update_device_a,
          ModuleC.update_device_b, h]
      rw [List.foldl_cons, hu, ih]
  · simp [ModuleC.update_device_a, ModuleC.set_running]
  · simp [ModuleC.update_device_b, ModuleC.set_running]

/-- Witness for C6 on a frozen state with two dropped updates. -/
theorem frozen_updates_dropped_witness :
    [SupUpdate.fromA 9, SupUpdate.fromB 9].foldl applySupUpdate
        ⟨1, 2, 3, 0, false, true⟩ = ⟨1, 2, 3, 0, false, true⟩ ∧
    (ModuleC.update_device_a (ModuleC.set_running ⟨1, 2, 3, 0, false, true⟩ true)
        7).device_a = 7 ∧
    (ModuleC.update_device_b (ModuleC.set_running ⟨1, 2, 3, 0, false, true⟩ true)
        8).device_b = 8 :=
  frozen_updates_dropped ⟨1, 2, 3, 0, false, true⟩
    [SupUpdate.fromA 9, SupUpdate.fromB 9] 7 8 rfl
lemma deviceBInv_init (t0 : ℚ) : DeviceBInv (DeviceB.init t0) :=
  ⟨fun h => by simp [DeviceB.init] at h, fun _ => rfl⟩

lemma watchdog_check_frozen (s : DeviceBState) (now scale : ℚ)
    (hfz : s.frozen = true) : DeviceB.watchdog_check s now scale = s := by
  unfold DeviceB.watchdog_check
  rw [hfz]
  simp

lemma watchdog_check_fields (s : DeviceBState) (now scale : ℚ) :
    (DeviceB.watchdog_check s now scale).frozen = s.frozen ∧
    (DeviceB.watchdog_check s now scale).frozen_watchdog_status =
      s.frozen_watchdog_status := by
  unfold DeviceB.watchdog_check
  split_ifs <;> exact ⟨rfl, rfl⟩

lemma watchdog_check_triggers (s : DeviceBState) (now scale : ℚ)
    (hrun : s.running = true) (hfroz : s.frozen = false)
    (ht : now - s.last_watchdog_reset > DeviceB._watchdog_timeout scale) :
    (DeviceB.watchdog_check s now scale).watchdog_status = .triggered := by
  by_cases hst : s.watchdog_status = WatchdogStatus.triggered
  · simp [DeviceB.watchdog_check, hrun, hfroz, ht, hst]
  · simp [DeviceB.watchdog_check, hrun, hfroz, ht, hst]

lemma watchdog_check_on_triggered (s : DeviceBState) (now scale : ℚ)
    (h : s.watchdog_status = .triggered) : DeviceB.watchdog_check s now scale = s := by
  unfold DeviceB.watchdog_check
  split_ifs with h1 h2 h3
  · exact absurd h h3
  · rfl
  · rfl
  · rfl

lemma handle_frame_frozen (s : DeviceBState) (bs : List Nat) (now : ℚ)
    (hfz : s.frozen = true) : DeviceB.handle_frame s bs now = s := by
  unfold DeviceB.handle_frame
  rw [hfz]
  simp

lemma handle_frame_fields (s : DeviceBState) (bs : List Nat) (now : ℚ) :
    (DeviceB.handle_frame s bs now).frozen = s.frozen ∧
    (DeviceB.handle_frame s bs now).frozen_watchdog_status =
      s.frozen_watchdog_status := by
  unfold DeviceB.handle_frame
  split_ifs with hfz
  · exact ⟨rfl, rfl⟩
  · cases hdec : CANFrame.from_ethernet bs with
    | error e => exact ⟨rfl, rfl⟩
    | ok frame =>
      dsimp only
      split_ifs with hid1 hid2
      · cases frame.data <;> exact ⟨rfl, rfl⟩
      · cases frame.data <;> exact ⟨rfl, rfl⟩
      · exact ⟨rfl, rfl⟩

lemma handle_frame_status_preserved (s : DeviceBState) (bs : List Nat) (now : ℚ)
    (h : ∀ frame, CANFrame.from_ethernet bs = .ok frame → frame.can_id ≠ 0x100) :
    (DeviceB.handle_frame s bs now).watchdog_status = s.watchdog_status := by
  unfold DeviceB.handle_frame
  split_ifs with hfz
  · rfl
  · cases hdec : CANFrame.from_ethernet bs with
    | error e => rfl
    | ok frame =>
      dsimp only
      rw [if_neg (h frame hdec)]
      split_ifs with hid2
      · cases frame.data <;> rfl
      · rfl

lemma set_running_status (s : DeviceBState) (b : Bool) (hinv : DeviceBInv s) :
    (DeviceB.set_running s b).watchdog_status = s.watchdog_status := by
  obtain ⟨h1, h2⟩ := hinv
  unfold DeviceB.set_running
  cases b
  · simp
  · simp only [if_true]
    cases hfz : s.frozen
    · rw [h2 hfz]
    · rw [h1 hfz]

lemma deviceBInv_preserved (s : DeviceBState) (e : DeviceBEvent)
    (hinv : DeviceBInv s) : DeviceBInv (DeviceB.step s e) := by
  obtain ⟨h1, h2⟩ := hinv
  cases e with
  | monitor now scale =>
    show DeviceBInv (DeviceB.watchdog_check s now scale)
    cases hfz : s.frozen
    · refine ⟨fun h => ?_, fun _ => ?_⟩
      · rw [(watchdog_check_fields s now scale).1, hfz] at h
        exact absurd h (by simp)
      · rw [(watchdog_check_fields s now scale).2]
        exact h2 hfz
    · rw [watchdog_check_frozen s now scale hfz]
      exact ⟨h1, h2⟩
  | frame bs now =>
    show DeviceBInv (DeviceB.handle_frame s bs now)
    cases hfz : s.frozen
    · refine ⟨fun h => ?_, fun _ => ?_⟩
      · rw [(handle_frame_fields s bs now).1, hfz] at h
        exact absurd h (by simp)
      · rw [(handle_frame_fields s bs now).2]
        exact h2 hfz
    · rw [handle_frame_frozen s bs now hfz]
      exact ⟨h1, h2⟩
  | set_running b =>
    show DeviceBInv (DeviceB.set_running s b)
    unfold DeviceB.set_running
    cases b
    · simp only [Bool.false_eq_true, if_false]
      exact ⟨fun _ => rfl, fun h => by simp at h⟩
    · simp only [if_true]
      cases hsv : s.frozen_watchdog_status with
      | none => exact ⟨fun h => by simp at h, fun _ => rfl⟩
      | some w => exact ⟨fun h => by simp at h, fun _ => rfl⟩

/-- C4: the watchdog latch of Device B — the monitor transitions ok to
triggered when now - last_reset_time exceeds the scaled timeout with the device
running and not frozen; a monitor check on an already-triggered state changes
nothing (the transition fires at most once per latched episode and stays
latched); and the only step of the subsystem that leaves the triggered state is
an inbound frame decoding to the watchdog-reset identifier 0x100 (which is also
how a command-initiated reset arrives); the reachable-state invariant is
preserved by every step. -/
theorem watchdog_latch (s : DeviceBState) (now scale : ℚ) (e : DeviceBEvent)
    (hinv : DeviceBInv s) :
    (s.running = true → s.frozen = false →
      now - s.last_watchdog_reset > DeviceB._watchdog_timeout scale →
      (DeviceB.step s (.monitor now scale)).watchdog_status = .triggered) ∧
    (s.watchdog_status = .triggered → DeviceB.step s (.monitor now scale) = s) ∧
    (s.watchdog_status = .triggered →
      (DeviceB.step s e).watchdog_status = .ok →
      ∃ bs t frame, e = .frame bs t ∧
        CANFrame.from_ethernet bs = .ok frame ∧ frame.can_id = 0x100) ∧
    DeviceBInv (DeviceB.step s e) := by
  refine ⟨?_, ?_, ?_, deviceBInv_preserved s e hinv⟩
  · intro hrun hfroz htime
    exact watchdog_check_triggers s now scale hrun hfroz htime
  · intro htrig
    exact watchdog_check_on_triggered s now scale htrig
  · intro htrig hok
    cases e with
    | monitor t sc =>
      exfalso
      have hs : DeviceB.step s (DeviceBEvent.monitor t sc) = s :=
        watchdog_check_on_triggered s t sc htrig
      rw [hs, htrig] at hok
      exact WatchdogStatus.noConfusion hok
    | set_running b =>
      exfalso
      have hs : (DeviceB.step s (DeviceBEvent.set_running b)).watchdog_status =
          s.watchdog_status := set_running_status s b hinv
      rw [hs, htrig] at hok
      exact WatchdogStatus.noConfusion hok
    | frame bs t =>
      cases hdec : CANFrame.from_ethernet bs with
      | error err =>
        exfalso
        have hs : (DeviceB.step s (DeviceBEvent.frame bs t)).watchdog_status =
            s.watchdog_status :=
          handle_frame_status_preserved s bs t
            (fun f hf => absurd (hdec ▸ hf) (by simp))
        rw [hs, htrig] at hok
        exact WatchdogStatus.noConfusion hok
      | ok frame =>
        by_cases hid : frame.can_id = 0x100
        · exact ⟨bs, t, frame, rfl, hdec, hid⟩
        · exfalso
          have hs : (DeviceB.step s (DeviceBEvent.frame bs t)).watchdog_status =
              s.watchdog_status :=
            handle_frame_status_preserved s bs t
              (fun f hf => by
                rw [hdec] at hf
                cases hf
                exact hid)
          rw [hs, htrig] at hok
          exact WatchdogStatus.noConfusion hok


/-- Witness for C4: a triggered, running, unfrozen state, a monitor check and a
decoded watchdog-reset frame. -/
theorem watchdog_latch_witness :
    (sTrigExample.running = true → sTrigExample.frozen = false →
      (1 : ℚ) - sTrigExample.last_watchdog_reset > DeviceB._watchdog_timeout 1 →
      (DeviceB.step sTrigExample (.monitor 1 1)).watchdog_status = .triggered) ∧
    (sTrigExample.watchdog_status = .triggered →
      DeviceB.step sTrigExample (.monitor 1 1) = sTrigExample) ∧
    (sTrigExample.watchdog_status = .triggered →
      (DeviceB.step sTrigExample (.frame wdResetBytes 1)).watchdog_status = .ok →
      ∃ bs t frame, DeviceBEvent.frame wdResetBytes 1 = .frame bs t ∧
        CANFrame.from_ethernet bs = .ok frame ∧ frame.can_id = 0x100) ∧
    DeviceBInv (DeviceB.step sTrigExample (.frame wdResetBytes 1)) :=
  watchdog_latch sTrigExample 1 1 (.frame wdResetBytes 1)
    ⟨fun h => absurd h (by decide), fun _ => by decide⟩
/-- C7: the failing input for freeze idempotence — starting from a state with
the auto watchdog enabled, one set_frozen(true) saves `some true` as the
pre-freeze enablement, but a second set_frozen(true) overwrites it with
`some false` (the enablement was already cleared by the first call), so the two
states differ and a later unfreeze restores a disabled auto watchdog instead of
the pre-freeze enabled one. -/
theorem set_frozen_not_idempotent :
    (CloudApp.set_frozen appStart true).watchdog_state_before_freeze = some true ∧
    (CloudApp.set_frozen (CloudApp.set_frozen appStart true)
      true).watchdog_state_before_freeze = some false ∧
    CloudApp.set_frozen (CloudApp.set_frozen appStart true) true ≠
      CloudApp.set_frozen appStart true ∧
    (CloudApp.set_frozen (CloudApp.set_frozen appStart true)
      false).auto_watchdog_enabled = true ∧
    (CloudApp.set_frozen (CloudApp.set_frozen (CloudApp.set_frozen appStart true)
      true) false).auto_watchdog_enabled = false := by
  refine ⟨rfl, rfl, ?_, rfl, rfl⟩
  intro h
  exact absurd (congrArg CloudAppState.watchdog_state_before_freeze h) (by decide)

/-- C8 counterexample: with half a second elapsed since the previous reset and
one Device A frame counted, the published rate is count / max(1, elapsed) x
scale = 1, not the claim's count / elapsed x scale = 2. -/
theorem reset_tick_rate_counterexample :
    statsStart.frozen = false ∧
    (CloudPipeline.reset_counters_tick statsStart (1/2) 1).rate_device_a ≠
      ((statsStart.device_a_frames : ℚ) /
        ((1/2 : ℚ) - statsStart.last_rates_update)) * 1 := by
  constructor
  · rfl
  · intro h
    norm_num [CloudPipeline.reset_counters_tick, statsStart] at h

/-- C8 (amended): each tick of the counter-reset task, when not frozen,
publishes rates for the device_a, device_b and total categories (count being
the category counter, frames_processed for total), each computed as
count / max(1, elapsed_seconds) x TimingScale with elapsed_seconds the time
since the previous reset (clamped below at one second), then zeroes all five
frame counters and timestamps the reset, so the counters are zero immediately
after the tick and the rates describe only the just-completed window. -/
theorem reset_tick_spec (s : CPState) (now scale : ℚ) (h : s.frozen = false) :
    (CloudPipeline.reset_counters_tick s now scale).rate_device_a =
      ((s.device_a_frames : ℚ) / max 1 (now - s.last_rates_update)) * scale ∧
    (CloudPipeline.reset_counters_tick s now scale).rate_device_b =
      ((s.device_b_frames : ℚ) / max 1 (now - s.last_rates_update)) * scale ∧
    (CloudPipeline.reset_counters_tick s now scale).rate_total =
      ((s.frames_processed : ℚ) / max 1 (now - s.last_rates_update)) * scale ∧
    (CloudPipeline.reset_counters_tick s now scale).frames_processed = 0 ∧
    (CloudPipeline.reset_counters_tick s now scale).device_a_frames = 0 ∧
    (CloudPipeline.reset_counters_tick s now scale).device_b_frames = 0 ∧
    (CloudPipeline.reset_counters_tick s now scale).control_frames = 0 ∧
    (CloudPipeline.reset_counters_tick s now scale).watchdog_frames = 0 ∧
    (CloudPipeline.reset_counters_tick s now scale).last_rates_update = now := by
  simp [CloudPipeline.reset_counters_tick, h]

/-- Witness for C8 (amended) at a 20-second window with scale 1. -/
theorem reset_tick_spec_witness :
    (CloudPipeline.reset_counters_tick statsStart 20 1).rate_device_a =
      ((statsStart.device_a_frames : ℚ) / max 1 ((20 : ℚ) - statsStart.last_rates_update)) * 1 ∧
    (CloudPipeline.reset_counters_tick statsStart 20 1).rate_device_b =
      ((statsStart.device_b_frames : ℚ) / max 1 ((20 : ℚ) - statsStart.last_rates_update)) * 1 ∧
    (CloudPipeline.reset_counters_tick statsStart 20 1).rate_total =
      ((statsStart.frames_processed : ℚ) / max 1 ((20 : ℚ) - statsStart.last_rates_update)) * 1 ∧
    (CloudPipeline.reset_counters_tick statsStart 20 1).frames_processed = 0 ∧
    (CloudPipeline.reset_counters_tick statsStart 20 1).device_a_frames = 0 ∧
    (CloudPipeline.reset_counters_tick statsStart 20 1).device_b_frames = 0 ∧
    (CloudPipeline.reset_counters_tick statsStart 20 1).control_frames = 0 ∧
    (CloudPipeline.reset_counters_tick statsStart 20 1).watchdog_frames = 0 ∧
    (CloudPipeline.reset_counters_tick statsStart 20 1).last_rates_update = 20 :=
  reset_tick_spec statsStart 20 1 rfl

/-- C10: for a well-formed encapsulation addressed to a registered handler
whose declared payload is too short for that handler (Device A status or
control with an empty payload, Device B status with fewer than 4 payload
bytes), process_device_frame propagates the handler's IndexError to the caller,
and the returned state already has frames_processed and the per-category
counter incremented — the failed call is not atomic on the statistics. -/
theorem short_payload_dispatch (s : CPState) (bytes : List Nat) (now : ℚ)
    (frame : CANFrame) (hfroz : s.frozen = false)
    (hdec : CANFrame.from_ethernet bytes = .ok frame) :
    (frame.can_id = DEVICE_A_STATUS_ID → frame.data = [] →
      (CloudPipeline.process_device_frame s bytes now).2 = .error .indexError ∧
      (CloudPipeline.process_device_frame s bytes now).1.frames_processed =
        s.frames_processed + 1 ∧
      (CloudPipeline.process_device_frame s bytes now).1.device_a_frames =
        s.device_a_frames + 1) ∧
    (frame.can_id = CONTROL_FRAME_ID → frame.data = [] →
      (CloudPipeline.process_device_frame s bytes now).2 = .error .indexError ∧
      (CloudPipeline.process_device_frame s bytes now).1.frames_processed =
        s.frames_processed + 1 ∧
      (CloudPipeline.process_device_frame s bytes now).1.control_frames =
        s.control_frames + 1) ∧
    (frame.can_id = DEVICE_B_STATUS_ID → frame.data.length < 4 →
      (CloudPipeline.process_device_frame s bytes now).2 = .error .indexError ∧
      (CloudPipeline.process_device_frame s bytes now).1.frames_processed =
        s.frames_processed + 1 ∧
      (CloudPipeline.process_device_frame s bytes now).1.device_b_frames =
        s.device_b_frames + 1) := by
  refine ⟨?_, ?_, ?_⟩
  · intro hid hdata
    simp [CloudPipeline.process_device_frame, CloudPipeline._handle_device_a_frame,
      hdec, hfroz, hid, hdata, DEVICE_A_STATUS_ID]
  · intro hid hdata
    simp [CloudPipeline.process_device_frame, CloudPipeline._handle_control_frame,
      hdec, hfroz, hid, hdata, DEVICE_A_STATUS_ID, DEVICE_B_STATUS_ID,
      WATCHDOG_FRAME_ID, CONTROL_FRAME_ID]
  · intro hid hlen
    have h4 : ¬ 4 ≤ frame.data.length := by omega
    by_cases h2 : 2 ≤ frame.data.length <;>
      simp [CloudPipeline.process_device_frame, CloudPipeline._handle_device_b_frame,
        hdec, hfroz, hid, h2, h4, DEVICE_A_STATUS_ID, DEVICE_B_STATUS_ID,
        WATCHDOG_FRAME_ID, CONTROL_FRAME_ID]


theorem short_payload_dispatch_witness :
    ((⟨true, false, 0x18FF0001, []⟩ : CANFrame).can_id = DEVICE_A_STATUS_ID →
      (⟨true, false, 0x18FF0001, []⟩ : CANFrame).data = [] →
      (CloudPipeline.process_device_frame statsStart emptyAStatusBytes 0).2 =
        .error .indexError ∧
      (CloudPipeline.process_device_frame statsStart
        emptyAStatusBytes 0).1.frames_processed = statsStart.frames_processed + 1 ∧
      (CloudPipeline.process_device_frame statsStart
        emptyAStatusBytes 0).1.device_a_frames = statsStart.device_a_frames + 1) ∧
    ((⟨true, false, 0x18FF0001, []⟩ : CANFrame).can_id = CONTROL_FRAME_ID →
      (⟨true, false, 0x18FF0001, []⟩ : CANFrame).data = [] →
      (CloudPipeline.process_device_frame statsStart emptyAStatusBytes 0).2 =
        .error .indexError ∧
      (CloudPipeline.process_device_frame statsStart
        emptyAStatusBytes 0).1.frames_processed = statsStart.frames_processed + 1 ∧
      (CloudPipeline.process_device_frame statsStart
        emptyAStatusBytes 0).1.control_frames = statsStart.control_frames + 1) ∧
    ((⟨true, false, 0x18FF0001, []⟩ : CANFrame).can_id = DEVICE_B_STATUS_ID →
      (⟨true, false, 0x18FF0001, []⟩ : CANFrame).data.length < 4 →
      (CloudPipeline.process_device_frame statsStart emptyAStatusBytes 0).2 =
        .error .indexError ∧
      (CloudPipeline.process_device_frame statsStart
        emptyAStatusBytes 0).1.frames_processed = statsStart.frames_processed + 1 ∧
      (CloudPipeline.process_device_frame statsStart
        emptyAStatusBytes 0).1.device_b_frames = statsStart.device_b_frames + 1) :=
  short_payload_dispatch statsStart emptyAStatusBytes 0
    ⟨true, false, 0x18FF0001, []⟩ rfl rfl
